import Mathlib

/-!
Shallow embedding of the Supagrants/funder review core
(`src/main.py`, `src/chat/router.py`, `src/chat/custom_knowledge_base.py`).

Python strings are modelled as `List Char`; Python byte strings as
`List Nat` (each entry < 256).  Machine words in the MD5 digest are `Nat`
taken modulo `2 ^ 32` where overflow matters.  Fallible Python code is
modelled with `Except` (a raised exception is `.error`), and `None`-able
values with `Option`.
-/

namespace Funder


/-- Python `str` values are modelled as lists of characters. -/
abbrev Str := List Char

/-- Coerce a Lean string literal to the `Str` model. -/
def str (s : String) : Str := s.data

/-- Python `sub in s` substring test (scan for `sub` at every position). -/
def pyContains (s sub : Str) : Bool :=
  match s with
  | [] => sub.isEmpty
  | _ :: rest => sub.isPrefixOf s || pyContains rest sub

/-- Auxiliary scanner for Python `s.split(sep)` with nonempty `sep`:
`fuel` bounds the remaining length, `acc` collects the current piece
(reversed).  Structural recursion on the fuel keeps the definition
kernel-reducible. -/
def pySplitGo (sep : Str) : Nat → Str → Str → List Str
  | _, [], acc => [acc.reverse]
  | 0, s, acc => [acc.reverse ++ s]
  | fuel + 1, c :: rest, acc =>
    if sep.isPrefixOf (c :: rest) then
      acc.reverse :: pySplitGo sep fuel (List.drop (sep.length - 1) rest) []
    else
      pySplitGo sep fuel rest (c :: acc)

/-- Python `s.split(sep)` for a nonempty separator: cut `s` at every
non-overlapping occurrence of `sep`, scanning left to right.
(Python raises on an empty separator; the labels used by the source are
all nonempty, so that branch returns `[s]` arbitrarily.) -/
def pySplit (sep s : Str) : List Str :=
  if sep.isEmpty then [s] else pySplitGo sep s.length s []

/-- The characters Python `str.strip()` removes by default. -/
def isPyWhitespace (c : Char) : Bool :=
  c = ' ' || c = '\t' || c = '\n' || c = '\r' || c = Char.ofNat 11 || c = Char.ofNat 12

/-- Python `s.strip()`: drop whitespace from both ends. -/
def pyStrip (s : Str) : Str :=
  ((s.dropWhile isPyWhitespace).reverse.dropWhile isPyWhitespace).reverse

/-- Python `s.replace(old, new)` (all occurrences), for nonempty `old`. -/
def pyReplace (s old new : Str) : Str :=
  List.intercalate new (pySplit old s)

/-- Decimal digits of a natural number (fuel-based so it reduces in the
kernel); helper for `natToStr`. -/
def natToStrGo : Nat → Nat → Str
  | 0, _ => []
  | _ + 1, 0 => []
  | fuel + 1, n => natToStrGo fuel (n / 10) ++ [Char.ofNat (48 + n % 10)]

/-- Decimal rendering of a natural number. -/
def natToStr (n : Nat) : Str :=
  if n = 0 then str "0" else natToStrGo (n + 1) n

/-- Python `s.encode()`: UTF-8 byte encoding of a string. -/
def utf8Encode : Str → List Nat
  | [] => []
  | c :: cs =>
    let n := c.toNat
    (if n < 0x80 then [n]
     else if n < 0x800 then
       [0xC0 + n / 64, 0x80 + n % 64]
     else if n < 0x10000 then
       [0xE0 + n / 4096, 0x80 + (n / 64) % 64, 0x80 + n % 64]
     else
       [0xF0 + n / 262144, 0x80 + (n / 4096) % 64, 0x80 + (n / 64) % 64,
        0x80 + n % 64]) ++ utf8Encode cs

/-! ### MD5 (`hashlib.md5(...).hexdigest()`)

A faithful implementation of RFC 1321 over byte lists, with 32-bit words
as `Nat` reduced modulo `2 ^ 32`. -/

/-- The 64 MD5 sine-derived additive constants. -/
def md5K : List Nat :=
  [0xd76aa478, 0xe8c7b756, 0x242070db, 0xc1bdceee,
   0xf57c0faf, 0x4787c62a, 0xa8304613, 0xfd469501,
   0x698098d8, 0x8b44f7af, 0xffff5bb1, 0x895cd7be,
   0x6b901122, 0xfd987193, 0xa679438e, 0x49b40821,
   0xf61e2562, 0xc040b340, 0x265e5a51, 0xe9b6c7aa,
   0xd62f105d, 0x02441453, 0xd8a1e681, 0xe7d3fbc8,
   0x21e1cde6, 0xc33707d6, 0xf4d50d87, 0x455a14ed,
   0xa9e3e905, 0xfcefa3f8, 0x676f02d9, 0x8d2a4c8a,
   0xfffa3942, 0x8771f681, 0x6d9d6122, 0xfde5380c,
   0xa4beea44, 0x4bdecfa9, 0xf6bb4b60, 0xbebfbc70,
   0x289b7ec6, 0xeaa127fa, 0xd4ef3085, 0x04881d05,
   0xd9d4d039, 0xe6db99e5, 0x1fa27cf8, 0xc4ac5665,
   0xf4292244, 0x432aff97, 0xab9423a7, 0xfc93a039,
   0x655b59c3, 0x8f0ccc92, 0xffeff47d, 0x85845dd1,
   0x6fa87e4f, 0xfe2ce6e0, 0xa3014314, 0x4e0811a1,
   0xf7537e82, 0xbd3af235, 0x2ad7d2bb, 0xeb86d391]

/-- The 64 MD5 per-round left-rotation amounts. -/
def md5S : List Nat :=
  [7, 12, 17, 22, 7, 12, 17, 22, 7, 12, 17, 22, 7, 12, 17, 22,
   5,  9, 14, 20, 5,  9, 14, 20, 5,  9, 14, 20, 5,  9, 14, 20,
   4, 11, 16, 23, 4, 11, 16, 23, 4, 11, 16, 23, 4, 11, 16, 23,
   6, 10, 15, 21, 6, 10, 15, 21, 6, 10, 15, 21, 6, 10, 15, 21]

/-- 32-bit word arithmetic: bitwise complement. -/
def w32not (x : Nat) : Nat := 0xffffffff - x % 2 ^ 32

/-- 32-bit left rotation expressed with multiplication and division so the
kernel's accelerated `Nat` arithmetic evaluates it. -/
def w32rotl (x s : Nat) : Nat :=
  (x % 2 ^ 32 * 2 ^ s + x % 2 ^ 32 / 2 ^ (32 - s)) % 2 ^ 32

/-- One MD5 round: nonlinear function and message-word index for round `i`. -/
def md5FG (i b c d : Nat) : Nat × Nat :=
  if i < 16 then
    (Nat.lor (Nat.land b c) (Nat.land (w32not b) d), i)
  else if i < 32 then
    (Nat.lor (Nat.land d b) (Nat.land (w32not d) c), (5 * i + 1) % 16)
  else if i < 48 then
    (Nat.xor (Nat.xor b c) d, (3 * i + 5) % 16)
  else
    (Nat.xor c (Nat.lor b (w32not d)), (7 * i) % 16)

/-- One MD5 step on the `(a, b, c, d)` state, given the 16 message words. -/
def md5Step (m : List Nat) (st : Nat × Nat × Nat × Nat) (i : Nat) :
    Nat × Nat × Nat × Nat :=
  let (a, b, c, d) := st
  let (f, g) := md5FG i b c d
  let temp := (a + f + md5K.getD i 0 + m.getD g 0) % 2 ^ 32
  (d, (b + w32rotl temp (md5S.getD i 0)) % 2 ^ 32, b, c)

/-- Decode a 64-byte block into 16 little-endian 32-bit words. -/
def md5Words : Nat → List Nat → List Nat
  | 0, _ => []
  | k + 1, bytes =>
    (bytes.getD 0 0 + 256 * (bytes.getD 1 0 + 256 * (bytes.getD 2 0 +
      256 * bytes.getD 3 0))) :: md5Words k (bytes.drop 4)

/-- Process one 64-byte block, updating the running digest state. -/
def md5Block (h : Nat × Nat × Nat × Nat) (block : List Nat) :
    Nat × Nat × Nat × Nat :=
  let m := md5Words 16 block
  let (a0, b0, c0, d0) := h
  let (a, b, c, d) := (List.range 64).foldl (md5Step m) (a0, b0, c0, d0)
  ((a0 + a) % 2 ^ 32, (b0 + b) % 2 ^ 32, (c0 + c) % 2 ^ 32, (d0 + d) % 2 ^ 32)

/-- Split a padded message into 64-byte blocks (fuel-based recursion). -/
def md5Chunks : Nat → List Nat → List (List Nat)
  | 0, _ => []
  | _ + 1, [] => []
  | fuel + 1, bytes => bytes.take 64 :: md5Chunks fuel (bytes.drop 64)

/-- MD5 padding: append `0x80`, zero bytes to 56 mod 64, then the bit
length as a 64-bit little-endian integer. -/
def md5Pad (msg : List Nat) : List Nat :=
  let len := msg.length
  let zeros := (56 + 64 - (len + 1) % 64) % 64
  let bitLen := len * 8 % 2 ^ 64
  msg ++ [0x80] ++ List.replicate zeros 0 ++
    (List.range 8).map (fun i => bitLen / 2 ^ (8 * i) % 256)

/-- Little-endian lowercase hex rendering of one 32-bit word (8 digits). -/
def w32hex (x : Nat) : Str :=
  (List.range 4).flatMap (fun i =>
    let byte := x / 2 ^ (8 * i) % 256
    [ (if byte / 16 < 10 then Char.ofNat (48 + byte / 16)
       else Char.ofNat (87 + byte / 16)),
      (if byte % 16 < 10 then Char.ofNat (48 + byte % 16)
       else Char.ofNat (87 + byte % 16)) ])

/-- `hashlib.md5(bytes).hexdigest()`: the 32-character lowercase hex
digest of a byte string. -/
def md5Hex (msg : List Nat) : Str :=
  let padded := md5Pad msg
  let (a, b, c, d) := (md5Chunks (padded.length + 1) padded).foldl md5Block
    (0x67452301, 0xefcdab89, 0x98badcfe, 0x10325476)
  w32hex a ++ w32hex b ++ w32hex c ++ w32hex d

/-- `hashlib.md5(review_content.encode()).hexdigest()`
(`custom_knowledge_base.py` line 56): the content hash of a review text. -/
def contentHash (reviewContent : Str) : Str :=
  md5Hex (utf8Encode reviewContent)

/-! ### Python dict model for the section map

`router.py`'s `_extract_application_sections` builds a nested Python dict
and mutates it in place.  The dict is modelled as an association list of
`(category, association list of (key, value))`, with in-place update
semantics (`modifyA` replaces the value at an existing key, preserving
insertion order, like Python assignment to an existing key). -/

/-- Nested section map: category name ↦ (field name ↦ value). -/
abbrev Sections := List (Str × List (Str × Str))

/-- Association-list lookup (Python `d[k]`, as an `Option`). -/
def lookupA {α : Type} : List (Str × α) → Str → Option α
  | [], _ => none
  | (k', v) :: rest, k => if k' = k then some v else lookupA rest k

/-- Apply `f` to the value stored at key `k` (no-op if absent); Python
assignment `d[k] = f d[k]` for a present key keeps insertion order. -/
def modifyA {α : Type} : List (Str × α) → Str → (α → α) → List (Str × α)
  | [], _, _ => []
  | (k', v') :: rest, k, f =>
    if k' = k then (k', f v') :: rest else (k', v') :: modifyA rest k f

/-- Python `d[k] = v` on a present key. -/
def updateA {α : Type} (l : List (Str × α)) (k : Str) (v : α) :
    List (Str × α) :=
  modifyA l k (fun _ => v)

/-- Python `d[cat][key]` read, as an `Option`. -/
def lookup2 (s : Sections) (cat key : Str) : Option Str :=
  (lookupA s cat).bind (fun inner => lookupA inner key)

/-- Python `d[cat][key] = v` on the nested dict. -/
def update2 (s : Sections) (cat key : Str) (v : Str) : Sections :=
  modifyA s cat (fun inner => updateA inner key v)

/-- The key structure of a section map: categories with their field
names, values erased. -/
def sectionsShape (s : Sections) : List (Str × List Str) :=
  s.map (fun p => (p.1, p.2.map Prod.fst))

/-- The dict literal that opens `_extract_application_sections`
(`router.py` lines 138–174): six categories, every field the empty
string. -/
def initialSections : Sections :=
  [(str "project_fundamentals",
     [(str "name", []), (str "website", []), (str "location", []),
      (str "solana_integration", [])]),
   (str "technical_infrastructure",
     [(str "github", []), (str "architecture", []), (str "progress", []),
      (str "open_source", [])]),
   (str "market_innovation",
     [(str "problem_solution", []), (str "market_opportunity", []),
      (str "innovation", [])]),
   (str "public_good_impact",
     [(str "community_benefit", []), (str "ecosystem_contribution", []),
      (str "accessibility", [])]),
   (str "team_capability",
     [(str "expertise", []), (str "track_record", []),
      (str "completeness", [])]),
   (str "implementation_plan",
     [(str "budget", []), (str "roadmap", []), (str "metrics", [])])]

/-- `content.split(label)[1].split(sep)[0].strip()`: the value following
the first occurrence of `label`, cut at the next `sep` (`"\n"` for
single-line fields, `"\n\n"` for multi-line ones), whitespace-trimmed.
Evaluated only under the `label in content` guard in the source, where
`split(label)` has at least two pieces. -/
def extractField (content label sep : Str) : Str :=
  pyStrip (((pySplit sep ((pySplit label content).getD 1 [])).getD 0 []))

/-- One `if "Label" in content: sections[cat][key] = ...` block of
`_extract_application_sections`. -/
def extractStep (content label cat key sep : Str) (s : Sections) : Sections :=
  if pyContains content label then
    update2 s cat key (extractField content label sep)
  else s

/-- The `"Team Qualifications:"` block (`router.py` lines 224–227):
`expertise` is extracted, then `track_record` and `completeness` are
copied from the just-written `expertise` value (a guarded read of an
always-present key, so `Option.getD` never falls back). -/
def teamStep (content : Str) (s : Sections) : Sections :=
  if pyContains content (str "Team Qualifications:") then
    let s1 := update2 s (str "team_capability") (str "expertise")
      (extractField content (str "Team Qualifications:") (str "\n\n"))
    let s2 := update2 s1 (str "team_capability") (str "track_record")
      ((lookup2 s1 (str "team_capability") (str "expertise")).getD [])
    update2 s2 (str "team_capability") (str "completeness")
      ((lookup2 s2 (str "team_capability") (str "expertise")).getD [])
  else s

/-- The first fourteen guarded assignments of
`_extract_application_sections` (`router.py` lines 177–221), up to but
not including the `"Team Qualifications:"` block, applied inside-out in
source order. -/
def preTeamSections (content : Str) : Sections :=
  extractStep content (str "Accessibility:")
      (str "public_good_impact") (str "accessibility") (str "\n\n")
    (extractStep content (str "Ecosystem Contribution:")
      (str "public_good_impact") (str "ecosystem_contribution") (str "\n\n")
    (extractStep content (str "Community Benefit:")
      (str "public_good_impact") (str "community_benefit") (str "\n\n")
    (extractStep content (str "Technical Innovation:")
      (str "market_innovation") (str "innovation") (str "\n\n")
    (extractStep content (str "Market Opportunity:")
      (str "market_innovation") (str "market_opportunity") (str "\n\n")
    (extractStep content (str "Problem Solution Fit:")
      (str "market_innovation") (str "problem_solution") (str "\n\n")
    (extractStep content (str "Open Source Status:")
      (str "technical_infrastructure") (str "open_source") (str "\n")
    (extractStep content (str "Development Progress:")
      (str "technical_infrastructure") (str "progress") (str "\n\n")
    (extractStep content (str "Technical Architecture:")
      (str "technical_infrastructure") (str "architecture") (str "\n\n")
    (extractStep content (str "Project GitHub Repository:")
      (str "technical_infrastructure") (str "github") (str "\n")
    (extractStep content (str "Solana Integration:")
      (str "project_fundamentals") (str "solana_integration") (str "\n")
    (extractStep content (str "Location Information")
      (str "project_fundamentals") (str "location") (str "\n")
    (extractStep content (str "Website URL:")
      (str "project_fundamentals") (str "website") (str "\n")
    (extractStep content (str "Company/Project Name:")
      (str "project_fundamentals") (str "name") (str "\n")
      initialSections)))))))))))))

/-- `_extract_application_sections(content)` (`router.py` lines 136–242):
the dict literal followed by the seventeen guarded field assignments, in
source order (the fourteen pre-team assignments, the team block, then the
three implementation-plan assignments).  No statement in the `try` block
can raise (every indexing is guarded), so the `except` path is dead and
the function is total. -/
def extract_application_sections (content : Str) : Sections :=
  extractStep content (str "Success Metrics:")
      (str "implementation_plan") (str "metrics") (str "\n\n")
    (extractStep content (str "Development Roadmap:")
      (str "implementation_plan") (str "roadmap") (str "\n\n")
    (extractStep content (str "Budget Proposal:")
      (str "implementation_plan") (str "budget") (str "\n\n")
    (teamStep content (preTeamSections content))))

/-! ### Review ledger (`custom_knowledge_base.py`)

Database timestamps are modelled as an abstract `Nat` clock assigned at
write time (`created_at` has a `now()` server default); `isoformat` of a
clock value is modelled by its decimal rendering. -/

/-- Metadata stored with each review (`add_review` lines 62–67). -/
structure ReviewMeta where
  user_id : Str
  application_id : Option Str
  application_date : Option Str
  review_type : Str
deriving DecidableEq

/-- One row of the `grant_reviews` table, as inserted by `add_review`
(lines 72–96). -/
structure ReviewRow where
  id : Str
  name : Str
  content : Str
  meta_data : ReviewMeta
  embedding : List Int
  document_type : Str
  content_hash : Str
  usage : Str
  filters : Str
  created_at : Nat
deriving DecidableEq

/-- The persisted `grant_reviews` table. -/
abbrev Store := List ReviewRow

/-- A review row as returned by `get_reviews` (the formatted dict of
lines 143–151; `created_at` is rendered, `None` if the column is absent —
a fetched timestamp is always truthy, so it is always rendered here). -/
structure ReviewOut where
  id : Str
  name : Str
  content : Str
  meta_data : ReviewMeta
  created_at : Option Str
  usage : Str
  filters : Str
deriving DecidableEq

/-- A JSON-object payload as produced by `json.loads` on an application:
each expected key either absent or bound to a value. -/
structure MetaDict where
  user_id : Option Str := none
  chat_id : Option Str := none
deriving DecidableEq

/-- A parsed application payload (Python dict with optional keys). -/
structure PyDict where
  id : Option Str := none
  name : Option Str := none
  content : Option Str := none
  meta_data : Option MetaDict := none
  document_type : Option Str := none
  created_at : Option Str := none
deriving DecidableEq

/-- The duck-typed `application_content` argument of `add_review`: the
orchestrator passes a plain string (`router.py` line 413), while the
formatter expects a dict. -/
inductive PyArg where
  | pystr (s : Str)
  | pydict (d : PyDict)

/-- Result of `_format_application_data` (lines 21–30). -/
structure FormattedApp where
  id : Option Str
  name : Option Str
  content : Option Str
  meta_data : MetaDict
  document_type : Str
  created_at : Str

/-- `_format_application_data(application_content)`
(`custom_knowledge_base.py` lines 21–30).  Calling `.get` on a plain
string raises `AttributeError`; on a dict, absent `document_type`
defaults to `"application"` and absent `created_at` defaults to
`datetime.now().isoformat()` (the `nowIso` argument). -/

def format_application_data (nowIso : Str) :
    PyArg → Except Str FormattedApp
  | .pystr _ => .error (str "AttributeError")
  | .pydict d => .ok
      { id := d.id
        name := d.name
        content := d.content
        meta_data := d.meta_data.getD {}
        document_type := d.document_type.getD (str "application")
        created_at := d.created_at.getD nowIso }

/-- Modelled from the spec: the `grant_reviews` table itself is created
outside `src/` ("existing table", `knowledge.py` line 21); spec §6 says
rows are "keyed by `content_hash`", so the insert of `add_review` hits a
primary key on the `id` column (which `add_review` fills with the content
hash).  A plain `INSERT` of an already-present key violates that
constraint and `psycopg2` raises. -/
def insertRow (store : Store) (row : ReviewRow) : Except Str Store :=
  if store.any (fun r => r.id = row.id) then
    .error (str "duplicate key value violates unique constraint")
  else
    .ok (store ++ [row])

/-- `add_review(user_id, application_content, review_content)`
(`custom_knowledge_base.py` lines 32–106): hash the review text, format
the application data, build the metadata, insert one row; any exception
is logged and re-raised (`.error`). -/
def add_review (getEmbedding : Str → List Int) (nowTs : Nat) (nowIso : Str)
    (store : Store) (user_id : Str) (application_content : PyArg)
    (review_content : Str) : Except Str (Str × Store) :=
  let content_hash := contentHash review_content
  match format_application_data nowIso application_content with
  | .error e => .error e
  | .ok formatted_app =>
    let meta_data : ReviewMeta :=
      { user_id := user_id
        application_id := formatted_app.id
        application_date := some formatted_app.created_at
        review_type := str "grant_review" }
    let row : ReviewRow :=
      { id := content_hash
        name := str "Grant Review - " ++ user_id
        content := review_content
        meta_data := meta_data
        embedding := getEmbedding review_content
        document_type := str "grant_review"
        content_hash := content_hash
        usage := str "\x7b\x7d"
        filters := str "\x7b\x7d"
        created_at := nowTs }
    match insertRow store row with
    | .error e => .error e
    | .ok store' => .ok (content_hash, store')

/-- The row set selected by `get_reviews` (lines 124–139): rows whose
`meta_data->>'user_id'` equals the requested user, ordered by
`created_at DESC` (insertion sort models the SQL `ORDER BY`). -/
def get_reviews_rows (store : Store) (user_id : Str) : List ReviewRow :=
  List.insertionSort (fun a b => b.created_at ≤ a.created_at)
    (store.filter (fun r => r.meta_data.user_id = user_id))

/-- The per-row output dict built in the fetch loop (lines 142–152). -/
def formatReviewRow (r : ReviewRow) : ReviewOut :=
  { id := r.id
    name := r.name
    content := r.content
    meta_data := r.meta_data
    created_at := some (natToStr r.created_at)
    usage := r.usage
    filters := r.filters }

/-- `get_reviews(user_id)` (lines 108–159). -/
def get_reviews (store : Store) (user_id : Str) : List ReviewOut :=
  (get_reviews_rows store user_id).map formatReviewRow

/-- `get_latest_review(user_id)` (lines 161–172):
`reviews[0] if reviews else None`. -/
def get_latest_review (store : Store) (user_id : Str) : Option ReviewOut :=
  (get_reviews store user_id).head?

/-! ### Context builder and orchestrator (`router.py`)

External collaborators are captured as function parameters whose results
are fixed before the build step runs (spec §4.3): `loads` is
`json.loads` on the extracted payload slice, `github` is the
repository-activity adapter (`tools/github_tools.py`, outside `src/`)
already composed with `json.loads` of its JSON reply, `market` is the
market-research adapter (`tools/perplexity_tools.py`, outside `src/`),
`pyRepr` is Python's builtin rendering of a list of review dicts inside
an f-string, and `agentRun` is the external reviewer invocation.  An
`Except.error` models a raised exception. -/

/-- The parsed reply of the repository-activity adapter: either a stats
payload `{repository, commit_count, since}` or a JSON body carrying an
`error` key.  Modelled from the spec for the adapter outside `src/`:
"a success payload `{repository, commit_count, window_start}` or a
failure marker" (§4.2). -/
inductive GhStats where
  | stats (repository : Str) (commit_count : Nat) (since : Str)
  | err (e : Str)

/-- `ApplicationData` (`router.py` lines 86–94). -/
structure ApplicationData where
  id : Str
  name : Str
  content : Str
  meta_data : Option MetaDict
  document_type : Str
  created_at : Str
deriving DecidableEq

/-- First index of a character in a string (Python `s.find`, as an
`Option` instead of `-1`). -/
def pyFindChar : Str → Char → Option Nat
  | [], _ => none
  | c :: rest, t =>
    if c = t then some 0 else (pyFindChar rest t).map (· + 1)

/-- Last index of a character in a string (Python `s.rfind`). -/
def pyRFindChar (s : Str) (t : Char) : Option Nat :=
  (pyFindChar s.reverse t).map (fun i => s.length - 1 - i)

/-- `_parse_application_data(msg)` (`router.py` lines 112–134): slice the
message between the first `{` and the last `}`, `json.loads` it, and read
the fields with `''`/`{}` defaults; any failure (no braces, or a raised
decode error, caught by the `except`) yields `None`. -/
def parse_application_data (loads : Str → Option PyDict) (msg : Str) :
    Option ApplicationData :=
  match pyFindChar msg (Char.ofNat 123), pyRFindChar msg (Char.ofNat 125) with
  | some start_idx, some last_idx =>
    let json_str := (msg.take (last_idx + 1)).drop start_idx
    match loads json_str with
    | none => none
    | some d => some
        { id := d.id.getD []
          name := d.name.getD []
          content := d.content.getD []
          meta_data := d.meta_data
          document_type := d.document_type.getD []
          created_at := d.created_at.getD [] }
  | _, _ => none

/-- The new-application marker recognized in the raw message. -/
def newAppMarker : Str := str "New Grant Application Received"

/-- The GitHub enrichment subsection (`router.py` lines 253–277): run only
when the extracted `github` field is truthy and the cleaned URL has at
least two `/`-separated parts; a raised error (upstream call or JSON
decode) degrades to the inline unavailable note. -/
def githubAnalysisText (github : Str → Except Str GhStats)
    (structured_data : Sections) : Str :=
  let gh := (lookup2 structured_data (str "technical_infrastructure")
    (str "github")).getD []
  if gh.isEmpty then [] else
    let repo_parts := pySplit (str "/")
      (pyReplace (pyReplace gh (str "https://github.com/") []) (str ".git") [])
    if 2 ≤ repo_parts.length then
      let repo_name := repo_parts.getD (repo_parts.length - 2) []
        ++ str "/" ++ repo_parts.getD (repo_parts.length - 1) []
      match github repo_name with
      | .ok (.stats repository commit_count since) =>
        str "\n                                GitHub Repository Analysis:\n                                - Repository: "
          ++ repository
          ++ str "\n                                - Commit Activity (Last 30 Days): "
          ++ natToStr commit_count
          ++ str " commits\n                                - Analysis Period: "
          ++ since
          ++ str "\n                                "
      | .ok (.err e) =>
        str "\nGitHub Analysis: Repository analysis failed - " ++ e
      | .error _ =>
        str "\nGitHub Analysis: Unable to analyze repository activity"
    else []

/-- The market-research enrichment subsection (`router.py` lines
279–293): run only when the extracted `problem_solution` field is truthy;
a raised error degrades to the inline unavailable note. -/
def marketAnalysisText (market : Str → Except Str Str)
    (structured_data : Sections) : Str :=
  let ps := (lookup2 structured_data (str "market_innovation")
    (str "problem_solution")).getD []
  if ps.isEmpty then [] else
    let market_query := str "Analyze market opportunity and competition for: "
      ++ ps ++ str ". Focus on market size, competitors, and growth potential."
    match market market_query with
    | .ok market_results =>
      str "\n                            Market Research Analysis:\n                            "
        ++ market_results ++ str "\n                            "
    | .error _ =>
      str "\nMarket Analysis: Unable to retrieve market insights"

/-- The fixed tail of the new-application template (`router.py` lines
309–335): the scoring-rubric instructions, reproduced once per context. -/
def rubricBlock : Str :=
  str "\n\n            Please evaluate this application based on the scoring rubric in the background information:\n\n            Core Application Components (40 points):\n            - Project Fundamentals (15 points)\n            - Technical Infrastructure (25 points)\n\n            Project Impact & Innovation (30 points):\n            - Market & Innovation (15 points)\n            - Public Good Impact (15 points)\n\n            Team & Execution (30 points):\n            - Team Capability (15 points)\n            - Implementation Plan (15 points)\n\n            Evaluation Notes:\n            1. For Technical Infrastructure scoring:\n            - Consider the GitHub commit activity as an indicator of development progress\n            - High activity (>30 commits/month) suggests active development\n            - Low activity (<10 commits/month) may indicate limited progress\n\n            2. For Market & Innovation scoring:\n            - Use the market research analysis to validate market opportunity claims\n            - Consider market size and competition information\n            - Evaluate growth potential based on market insights\n\n            Generate your evaluation in the required JSON format with specific notes for each category.\n            "

/-- The parse-error context of `_create_context` (`router.py` line 337):
a fixed message plus a 100-character preview of the raw input. -/
def parseErrorContext (msg : Str) : Str :=
  str "Error: Unable to parse application data from message: "
    ++ msg.take 100 ++ str "..."

/-- `_create_context(msg, user_id)` (`router.py` lines 244–348): the
new-application template (with both enrichment subsections and the
rubric) when the marker is present and the payload parses; the
parse-error context when it does not; the prior-reviews template
otherwise. -/
def create_context (loads : Str → Option PyDict)
    (github : Str → Except Str GhStats) (market : Str → Except Str Str)
    (pyRepr : List ReviewOut → Str) (store : Store) (msg user_id : Str) :
    Str × Option Sections :=
  if pyContains msg newAppMarker then
    match parse_application_data loads msg with
    | some app_data =>
      let structured_data := extract_application_sections app_data.content
      let github_analysis := githubAnalysisText github structured_data
      let market_analysis := marketAnalysisText market structured_data
      (str "\n            New Grant Application Review:\n\n            Applicant ID: "
         ++ user_id
         ++ str "\n            Application ID: " ++ app_data.id
         ++ str "\n            Submission Date: " ++ app_data.created_at
         ++ str "\n\n            Application Content:\n            "
         ++ app_data.content
         ++ str "\n\n            Technical Analysis:" ++ github_analysis
         ++ str "\n\n            Market Research:" ++ market_analysis
         ++ rubricBlock,
       some structured_data)
    | none => (parseErrorContext msg, none)
  else
    let review_history := get_reviews store user_id
    (str "\n            Previous Reviews:\n            "
       ++ pyRepr review_history
       ++ str "\n\n            Current Query:\n            "
       ++ msg ++ str "\n            ",
     none)

/-- Observable outcome of one `next_action` flow: the returned or raised
value, the table contents, the contexts handed to the external reviewer,
and the texts handed to the reply callback, in order. -/
structure FlowResult where
  result : Except Str Str
  store : Store
  agentCalls : List Str
  replyCalls : List Str

/-- The user-facing error text sent through the reply callback by the
`except` block of `next_action` (`router.py` line 429). -/
def errorReplyText (e : Str) : Str :=
  str "An error occurred while processing the application: " ++ e

/-- The `except` block of `next_action` (`router.py` lines 425–430): log,
re-send through the reply callback when present, then re-raise; a failure
of that send propagates instead (the bare `raise` is never reached). -/
def handleFlowError (reply : Option (Str → Except Str Unit)) (e : Str)
    (store : Store) (agentCalls replyCalls : List Str) : FlowResult :=
  match reply with
  | none => ⟨.error e, store, agentCalls, replyCalls⟩
  | some f =>
    match f (errorReplyText e) with
    | .ok _ => ⟨.error e, store, agentCalls, replyCalls ++ [errorReplyText e]⟩
    | .error e2 =>
      ⟨.error e2, store, agentCalls, replyCalls ++ [errorReplyText e]⟩

/-- `next_action(msg, user_id, chat_id, reply_function, processing_id)`
(`router.py` lines 386–430): build the context, run the reviewer, persist
on the new-application path (passing the raw `msg` as
`application_content`), then invoke the reply callback with the response;
any raised step falls into `handleFlowError`. -/
def next_action (loads : Str → Option PyDict)
    (github : Str → Except Str GhStats) (market : Str → Except Str Str)
    (pyRepr : List ReviewOut → Str) (agentRun : Str → Except Str Str)
    (getEmbedding : Str → List Int) (nowTs : Nat) (nowIso : Str)
    (store : Store) (msg user_id chat_id : Str)
    (reply : Option (Str → Except Str Unit)) : FlowResult :=
  let (context, structured_data) :=
    create_context loads github market pyRepr store msg user_id
  match agentRun context with
  | .error e => handleFlowError reply e store [context] []
  | .ok response_content =>
    let saveResult :=
      if pyContains msg newAppMarker && structured_data.isSome then
        (add_review getEmbedding nowTs nowIso store user_id (.pystr msg)
          response_content).map Prod.snd
      else .ok store
    match saveResult with
    | .error e => handleFlowError reply e store [context] []
    | .ok store' =>
      match reply with
      | none => ⟨.ok response_content, store', [context], []⟩
      | some f =>
        match f response_content with
        | .ok _ =>
          ⟨.ok response_content, store', [context], [response_content]⟩
        | .error e =>
          handleFlowError reply e store' [context] [response_content]

/-! ### Ingress (`main.py`) -/

/-- What the ingress operation does with a POST: return a status/message
body, or let an exception escape the endpoint. -/
inductive IngressOutcome where
  | response (status message : Str)
  | raised (exn : Str)
deriving DecidableEq

/-- Python truthiness of `user_id` (`if not user_id:`): `None` and the
empty string are both falsy. -/
def pyTruthyOpt : Option Str → Bool
  | none => false
  | some s => !s.isEmpty

/-- `format_application_text(app_data, user_id, message_id)` (`main.py`
lines 185–195).  The f-string indexes `app_data['name']`, `['content']`,
`['created_at']` and `['document_type']` directly, so a missing key
raises `KeyError`; `message_id` comes from `.get` and renders `None` when
absent. -/
def format_application_text (app_data : PyDict) (user_id : Str)
    (message_id : Option Str) : Except Str Str :=
  match app_data.name, app_data.content, app_data.created_at,
      app_data.document_type with
  | some nm, some ct, some ca, some dt =>
    .ok (str "📝 New Grant Application Received\n\nFrom User ID: "
      ++ user_id
      ++ str "\nApplication ID: " ++ (message_id.getD (str "None"))
      ++ str "\nDocument: " ++ nm
      ++ str "\nContent: " ++ ct
      ++ str "\nCreated: " ++ ca
      ++ str "\nType: " ++ dt ++ str "\n")
  | _, _, _, _ => .error (str "KeyError")

/-- The POST path of `process_application` (`main.py` lines 91–160),
with `loadResult` the outcome of `json.loads(application.application)`.

The local `funder_chat_id` is assigned only at line 112, after the
`json.loads` call of line 104: when `json.loads` raises, the
`except json.JSONDecodeError` handler evaluates
`notify_funder_error(funder_chat_id, ...)` while that local is still
unassigned, so `UnboundLocalError` is raised inside the handler and
escapes the endpoint (a sibling `except` clause of the same `try` does
not catch it); the `return {"status": "error", "message": "Invalid
application format"}` of line 155 is never reached.  On the other paths
`funder_chat_id` is bound, and `notify_funder_error` swallows its own
failures, so notification has no effect on the returned value. -/
def process_application (loads : Str → Option PyDict)
    (github : Str → Except Str GhStats) (market : Str → Except Str Str)
    (pyRepr : List ReviewOut → Str) (agentRun : Str → Except Str Str)
    (getEmbedding : Str → List Int) (nowTs : Nat) (nowIso : Str)
    (sendTelegram : Str → Except Str Unit)
    (loadResult : Except Str PyDict) (store : Store) :
    IngressOutcome × Store :=
  match loadResult with
  | .error _ => (.raised (str "UnboundLocalError"), store)
  | .ok app_data =>
    let user_id := match app_data.meta_data with
      | some md => md.user_id
      | none => none
    let message_id := app_data.id
    if pyTruthyOpt user_id = false then
      (.response (str "error") (str "Invalid application data"), store)
    else
      let uid := user_id.getD []
      match format_application_text app_data uid message_id with
      | .error _ => (.response (str "error") (str "Internal server error"), store)
      | .ok text =>
        let fr := next_action loads github market pyRepr agentRun
          getEmbedding nowTs nowIso store text uid (str "1002322529093")
          (some sendTelegram)
        match fr.result with
        | .error _ =>
          (.response (str "error") (str "Failed to generate review"), fr.store)
        | .ok review_result =>
          if review_result.isEmpty then
            (.response (str "error") (str "Failed to generate review"), fr.store)
          else
            (.response (str "success")
              (str "Application received and review generated"), fr.store)

/-! ### Ledger lemmas and claims C1, C2, C7 -/

instance {ε α : Type} [DecidableEq ε] [DecidableEq α] :
    DecidableEq (Except ε α) := fun a b =>
  match a, b with
  | .error x, .error y => decidable_of_iff (x = y) (by simp)
  | .error _, .ok _ => .isFalse (by simp)
  | .ok _, .error _ => .isFalse (by simp)
  | .ok x, .ok y => decidable_of_iff (x = y) (by simp)

/-- The exception raised by a duplicate-key insert. -/
def dupKeyError : Str := str "duplicate key value violates unique constraint"

/-! ### Claim C3: `get_reviews` filtering, ordering, empty case -/

instance : IsTotal ReviewRow (fun a b => b.created_at ≤ a.created_at) :=
  ⟨fun a b => Nat.le_total b.created_at a.created_at⟩

instance : IsTrans ReviewRow (fun a b => b.created_at ≤ a.created_at) :=
  ⟨fun _ _ _ hab hbc => Nat.le_trans hbc hab⟩

/-- A sample stored row used by witnesses. -/
def sampleRow (h : String) (created : Nat) : ReviewRow where
  id := str h
  name := str "Grant Review - u"
  content := str "review text"
  meta_data :=
    { user_id := str "u"
      application_id := none
      application_date := none
      review_type := str "grant_review" }
  embedding := []
  document_type := str "grant_review"
  content_hash := str h
  usage := str "\x7b\x7d"
  filters := str "\x7b\x7d"
  created_at := created

/-- The seventeen `(category, field, label)` triples of the extractor's
guarded assignments, in source order. -/
def fieldSpecs : List (Str × Str × Str) :=
  [(str "project_fundamentals", str "name", str "Company/Project Name:"),
   (str "project_fundamentals", str "website", str "Website URL:"),
   (str "project_fundamentals", str "location", str "Location Information"),
   (str "project_fundamentals", str "solana_integration",
     str "Solana Integration:"),
   (str "technical_infrastructure", str "github",
     str "Project GitHub Repository:"),
   (str "technical_infrastructure", str "architecture",
     str "Technical Architecture:"),
   (str "technical_infrastructure", str "progress",
     str "Development Progress:"),
   (str "technical_infrastructure", str "open_source",
     str "Open Source Status:"),
   (str "market_innovation", str "problem_solution",
     str "Problem Solution Fit:"),
   (str "market_innovation", str "market_opportunity",
     str "Market Opportunity:"),
   (str "market_innovation", str "innovation", str "Technical Innovation:"),
   (str "public_good_impact", str "community_benefit",
     str "Community Benefit:"),
   (str "public_good_impact", str "ecosystem_contribution",
     str "Ecosystem Contribution:"),
   (str "public_good_impact", str "accessibility", str "Accessibility:"),
   (str "team_capability", str "expertise", str "Team Qualifications:"),
   (str "team_capability", str "track_record", str "Team Qualifications:"),
   (str "team_capability", str "completeness", str "Team Qualifications:")]

/-- The value the `"Team Qualifications:"` block writes into all three
team fields when its label is present (empty otherwise). -/
def teamValue (content : Str) : Str :=
  if pyContains content (str "Team Qualifications:") then
    extractField content (str "Team Qualifications:") (str "\n\n")
  else []

/-! ### Claim C9: double enrichment failure still yields a full context -/

/-- `needle` occurs contiguously inside `hay`. -/
def containsStr (hay needle : Str) : Prop :=
  ∃ p q, hay = p ++ needle ++ q

/-- The inline note rendered when the repository-activity adapter raises. -/
def ghUnavailableNote : Str :=
  str "\nGitHub Analysis: Unable to analyze repository activity"

/-- The inline note rendered when the market-research adapter raises. -/
def mkUnavailableNote : Str :=
  str "\nMarket Analysis: Unable to retrieve market insights"

/-- Concrete application content used by the C9 witness. -/
def c9content : Str :=
  str "Project GitHub Repository: https://github.com/a/b\nProblem Solution Fit: x\n\n"

/-- Concrete inbound message used by the C9 witness. -/
def c9msg : Str := str "New Grant Application Received \x7bx\x7d"

/-- Concrete parsed payload used by the C9 witness. -/
def c9dict : PyDict := { content := some c9content }

/-- Concrete `ApplicationData` used by the C9 witness. -/
def c9app : ApplicationData :=
  { id := [], name := [], content := c9content, meta_data := none,
    document_type := [], created_at := [] }

/-- Sanity check of the MD5 embedding against RFC 1321 test vector `""`. -/
theorem md5Hex_empty :
    md5Hex [] = str "d41d8cd98f00b204e9800998ecf8427e" := by decide

/-- Sanity check of the MD5 embedding against RFC 1321 test vector `"abc"`. -/
theorem md5Hex_abc :
    contentHash (str "abc") = str "900150983cd24fb0d6963f7d28e17f72" := by
  decide

/-! ### Dict lemmas -/

theorem map_fst_modifyA {α : Type} (l : List (Str × α)) (k : Str)
    (f : α → α) : (modifyA l k f).map Prod.fst = l.map Prod.fst := by
  induction l with
  | nil => rfl
  | cons p rest ih =>
    obtain ⟨k', v'⟩ := p
    by_cases h : k' = k <;> simp [modifyA, h, ih]

theorem lookupA_modifyA_ne {α : Type} (l : List (Str × α)) {k k' : Str}
    (f : α → α) (h : k ≠ k') :
    lookupA (modifyA l k f) k' = lookupA l k' := by
  induction l with
  | nil => rfl
  | cons p rest ih =>
    obtain ⟨k₀, v₀⟩ := p
    by_cases h0 : k₀ = k
    · subst h0
      simp [modifyA, lookupA, h]
    · simp [modifyA, lookupA, h0, ih]

theorem lookupA_modifyA_self {α : Type} (l : List (Str × α)) (k : Str)
    (f : α → α) : lookupA (modifyA l k f) k = (lookupA l k).map f := by
  induction l with
  | nil => rfl
  | cons p rest ih =>
    obtain ⟨k₀, v₀⟩ := p
    by_cases h0 : k₀ = k <;> simp [modifyA, lookupA, h0, ih]

theorem lookup2_update2_ne (s : Sections) {cat key cat' key' : Str}
    (v : Str) (h : ¬(cat = cat' ∧ key = key')) :
    lookup2 (update2 s cat key v) cat' key' = lookup2 s cat' key' := by
  by_cases hc : cat = cat'
  · subst hc
    have hk : key ≠ key' := fun hk => h ⟨rfl, hk⟩
    simp only [lookup2, update2, lookupA_modifyA_self]
    cases lookupA s cat with
    | none => rfl
    | some inner => simp [updateA, lookupA_modifyA_ne inner _ hk]
  · simp [lookup2, update2, lookupA_modifyA_ne s _ hc]

theorem lookup2_update2_self (s : Sections) (cat key v : Str) :
    lookup2 (update2 s cat key v) cat key
      = (lookup2 s cat key).map (fun _ => v) := by
  simp only [lookup2, update2, lookupA_modifyA_self]
  cases lookupA s cat with
  | none => rfl
  | some inner => simp [updateA, lookupA_modifyA_self]

theorem sectionsShape_update2 (s : Sections) (cat key v : Str) :
    sectionsShape (update2 s cat key v) = sectionsShape s := by
  induction s with
  | nil => rfl
  | cons p rest ih =>
    obtain ⟨k₀, inner⟩ := p
    by_cases h0 : k₀ = cat
    · simp [sectionsShape, update2, modifyA, h0, updateA, map_fst_modifyA]
    · simpa [sectionsShape, update2, modifyA, h0] using ih

/-! ### Extraction-step lemmas -/

theorem lookup2_extractStep_ne (content label sep : Str)
    {cat key cat' key' : Str} (s : Sections)
    (h : ¬(cat = cat' ∧ key = key')) :
    lookup2 (extractStep content label cat key sep s) cat' key'
      = lookup2 s cat' key' := by
  unfold extractStep
  split
  · exact lookup2_update2_ne s _ h
  · rfl

theorem lookup2_extractStep_self (content label sep cat key : Str)
    (s : Sections) :
    lookup2 (extractStep content label cat key sep s) cat key
      = if pyContains content label then
          (lookup2 s cat key).map (fun _ => extractField content label sep)
        else lookup2 s cat key := by
  unfold extractStep
  split <;> simp [lookup2_update2_self]

theorem lookup2_teamStep_ne (content : Str) {cat' key' : Str}
    (s : Sections) (h : ¬cat' = str "team_capability") :
    lookup2 (teamStep content s) cat' key' = lookup2 s cat' key' := by
  have h' : ∀ k : Str, ¬(str "team_capability" = cat' ∧ k = key') :=
    fun _ hk => h hk.1.symm
  unfold teamStep
  split
  · rw [lookup2_update2_ne _ _ (h' _), lookup2_update2_ne _ _ (h' _),
      lookup2_update2_ne _ _ (h' _)]
  · rfl

theorem sectionsShape_extractStep (content label cat key sep : Str)
    (s : Sections) :
    sectionsShape (extractStep content label cat key sep s)
      = sectionsShape s := by
  unfold extractStep
  split <;> simp [sectionsShape_update2]

theorem sectionsShape_teamStep (content : Str) (s : Sections) :
    sectionsShape (teamStep content s) = sectionsShape s := by
  unfold teamStep
  split <;> simp [sectionsShape_update2]

/-- The key shape of the extracted sections never depends on the input:
all six categories and all seventeen field keys of the opening dict
literal survive every extraction step. -/
theorem sectionsShape_extract (content : Str) :
    sectionsShape (extract_application_sections content)
      = sectionsShape initialSections := by
  unfold extract_application_sections preTeamSections
  rw [sectionsShape_extractStep, sectionsShape_extractStep,
    sectionsShape_extractStep, sectionsShape_teamStep,
    sectionsShape_extractStep, sectionsShape_extractStep,
    sectionsShape_extractStep, sectionsShape_extractStep,
    sectionsShape_extractStep, sectionsShape_extractStep,
    sectionsShape_extractStep, sectionsShape_extractStep,
    sectionsShape_extractStep, sectionsShape_extractStep,
    sectionsShape_extractStep, sectionsShape_extractStep,
    sectionsShape_extractStep, sectionsShape_extractStep]

/-- Spec §8 scenario check: a `"Company/Project Name: Acme\n"` line in the
content extracts `project_fundamentals.name = "Acme"`. -/
theorem extract_scenario_acme :
    lookup2 (extract_application_sections
        (str "Company/Project Name: Acme\nWebsite URL: x\n"))
      (str "project_fundamentals") (str "name") = some (str "Acme") := by
  decide

theorem add_review_fresh (getEmbedding : Str → List Int) (nowTs : Nat)
    (nowIso : Str) (store : Store) (user_id : Str) (d : PyDict) (t : Str)
    (hfresh : ∀ r ∈ store, r.id ≠ contentHash t) :
    add_review getEmbedding nowTs nowIso store user_id (.pydict d) t
      = .ok (contentHash t, store ++
          [{ id := contentHash t
             name := str "Grant Review - " ++ user_id
             content := t
             meta_data :=
               { user_id := user_id
                 application_id := d.id
                 application_date := some (d.created_at.getD nowIso)
                 review_type := str "grant_review" }
             embedding := getEmbedding t
             document_type := str "grant_review"
             content_hash := contentHash t
             usage := str "\x7b\x7d"
             filters := str "\x7b\x7d"
             created_at := nowTs }]) := by
  have hany : store.any (fun r => r.id = contentHash t) = false := by
    rw [List.any_eq_false]
    intro r hr
    simpa using hfresh r hr
  simp [add_review, format_application_data, insertRow, hany]

theorem add_review_dup (getEmbedding : Str → List Int) (nowTs : Nat)
    (nowIso : Str) (store : Store) (user_id : Str) (arg : PyArg) (t : Str)
    (hdup : ∃ r ∈ store, r.id = contentHash t)
    (hdict : ∀ s, arg ≠ .pystr s) :
    add_review getEmbedding nowTs nowIso store user_id arg t
      = .error dupKeyError := by
  have hany : store.any (fun r => r.id = contentHash t) = true := by
    rw [List.any_eq_true]
    obtain ⟨r, hr, hid⟩ := hdup
    exact ⟨r, hr, by simpa using hid⟩
  cases arg with
  | pystr s => exact absurd rfl (hdict s)
  | pydict d => simp [add_review, format_application_data, insertRow, hany,
      dupKeyError]

/-- C1: as stated, the second `addReview` with the same review text does
compute the same hash, but it is not a no-op returning the existing hash:
the plain `INSERT` hits the existing key and the call raises.  Concrete
run: empty table, two `addReview` calls with `reviewText = "LGTM"` — the
second call returns a duplicate-key error, not `.ok` with the first
call's hash. -/
theorem addReview_twice_second_raises :
    (add_review (fun _ => []) 0 (str "T0") [] (str "u1") (.pydict {})
        (str "LGTM")).toOption.map Prod.fst
      = some (contentHash (str "LGTM"))
    ∧ add_review (fun _ => []) 1 (str "T1")
        (((add_review (fun _ => []) 0 (str "T0") [] (str "u1") (.pydict {})
          (str "LGTM")).toOption.map Prod.snd).getD [])
        (str "u1") (.pydict {}) (str "LGTM")
      = .error dupKeyError := by
  constructor
  · decide
  · decide

/-- C1 (amended): calling `addReview` twice with the same review text
computes the same content hash both times; the second insert raises a
duplicate-key error instead of silently returning the existing hash, and
the store still holds exactly one record for that review text. -/
theorem addReview_idempotent_hash_single_row (getEmbedding : Str → List Int)
    (ts1 ts2 : Nat) (iso1 iso2 : Str) (store : Store) (user_id : Str)
    (d : PyDict) (t : Str)
    (hfresh : ∀ r ∈ store, r.id ≠ contentHash t) :
    ∃ s1, add_review getEmbedding ts1 iso1 store user_id (.pydict d) t
          = .ok (contentHash t, s1)
      ∧ add_review getEmbedding ts2 iso2 s1 user_id (.pydict d) t
          = .error dupKeyError
      ∧ (s1.filter (fun r => r.id = contentHash t)).length = 1 := by
  refine ⟨_, add_review_fresh getEmbedding ts1 iso1 store user_id d t hfresh,
    ?_, ?_⟩
  · apply add_review_dup
    · exact ⟨_, List.mem_append.mpr (Or.inr (List.mem_singleton.mpr rfl)), rfl⟩
    · intro s h
      exact PyArg.noConfusion h
  · rw [List.filter_append]
    have h1 : store.filter (fun r => decide (r.id = contentHash t)) = [] := by
      rw [List.filter_eq_nil_iff]
      intro r hr
      simpa using hfresh r hr
    simp [h1]

/-- C1 (amended) witness: the concrete `"LGTM"` run at an empty table. -/
theorem addReview_idempotent_hash_single_row_witness :
    (∀ r ∈ ([] : Store), r.id ≠ contentHash (str "LGTM"))
    ∧ ∃ s1, add_review (fun _ => []) 0 (str "T0") [] (str "u1") (.pydict {})
          (str "LGTM") = .ok (contentHash (str "LGTM"), s1)
      ∧ add_review (fun _ => []) 1 (str "T1") s1 (str "u1") (.pydict {})
          (str "LGTM") = .error dupKeyError
      ∧ (s1.filter (fun r => r.id = contentHash (str "LGTM"))).length = 1 :=
  ⟨by simp, addReview_idempotent_hash_single_row (fun _ => []) 0 1 (str "T0")
    (str "T1") [] (str "u1") {} (str "LGTM") (by simp)⟩

set_option maxRecDepth 20000 in
/-- C2: the hash is not injective on byte-identical-or-not review texts —
these two distinct 72-character ASCII texts (a published MD5 collision)
receive the same `content_hash`, refuting "if `t1 != t2` then `addReview`
produces different hashes". -/
theorem contentHash_not_injective :
    str "TEXTCOLLBYfGiJUETHQ4hAcKSMd5zYpgqf1YRDhkmxHkhPWptrkoyz28wnI9V0aHeAuaKnak"
      ≠ str "TEXTCOLLBYfGiJUETHQ4hEcKSMd5zYpgqf1YRDhkmxHkhPWptrkoyz28wnI9V0aHeAuaKnak"
    ∧ contentHash
        (str "TEXTCOLLBYfGiJUETHQ4hAcKSMd5zYpgqf1YRDhkmxHkhPWptrkoyz28wnI9V0aHeAuaKnak")
      = contentHash
        (str "TEXTCOLLBYfGiJUETHQ4hEcKSMd5zYpgqf1YRDhkmxHkhPWptrkoyz28wnI9V0aHeAuaKnak") := by
  constructor
  · decide
  · decide

/-- C2 (amended): the content hash is a deterministic function of the
review text alone; byte-identical texts always collapse to one hash (and
one stored row), and texts whose hashes differ (which `t1 ≠ t2` does not
guarantee — MD5 collisions exist) yield two stored rows. -/
theorem contentHash_deterministic_two_rows (getEmbedding : Str → List Int)
    (ts1 ts2 : Nat) (iso1 iso2 : Str) (store : Store) (user_id : Str)
    (d : PyDict) (t1 t2 : Str)
    (hfresh : ∀ r ∈ store, r.id ≠ contentHash t1 ∧ r.id ≠ contentHash t2) :
    (t1 = t2 →
        contentHash t1 = contentHash t2
        ∧ ∃ s1,
            add_review getEmbedding ts1 iso1 store user_id (.pydict d) t1
              = .ok (contentHash t1, s1)
          ∧ add_review getEmbedding ts2 iso2 s1 user_id (.pydict d) t2
              = .error dupKeyError
          ∧ (s1.filter (fun r => r.id = contentHash t1)).length = 1)
    ∧ (contentHash t1 ≠ contentHash t2 →
        t1 ≠ t2
        ∧ ∃ s1 s2,
            add_review getEmbedding ts1 iso1 store user_id (.pydict d) t1
              = .ok (contentHash t1, s1)
          ∧ add_review getEmbedding ts2 iso2 s1 user_id (.pydict d) t2
              = .ok (contentHash t2, s2)
          ∧ s2.length = store.length + 2) := by
  constructor
  · intro h
    subst h
    refine ⟨rfl, _, add_review_fresh getEmbedding ts1 iso1 store user_id d t1
      (fun r hr => (hfresh r hr).1), ?_, ?_⟩
    · apply add_review_dup
      · exact ⟨_, List.mem_append.mpr (Or.inr (List.mem_singleton.mpr rfl)),
          rfl⟩
      · intro s hs
        exact PyArg.noConfusion hs
    · rw [List.filter_append]
      have h1 : store.filter (fun r => decide (r.id = contentHash t1))
          = [] := by
        rw [List.filter_eq_nil_iff]
        intro r hr
        simpa using (hfresh r hr).1
      simp [h1]
  · intro hne
    refine ⟨fun h => hne (by rw [h]), ?_⟩
    have h1 := add_review_fresh getEmbedding ts1 iso1 store user_id d t1
      (fun r hr => (hfresh r hr).1)
    refine ⟨_, _, h1, add_review_fresh getEmbedding ts2 iso2 _ user_id d t2
      ?_, by simp⟩
    intro r hr
    rcases List.mem_append.mp hr with h | h
    · exact (hfresh r h).2
    · simp only [List.mem_singleton] at h
      subst h
      simpa using hne

/-- C2 (amended) witness: the theorem applied twice concretely — at
byte-identical texts `"LGTM"`/`"LGTM"` (same hash, second insert raises,
one stored row), and at `"a"`/`"b"`, whose hashes are proved distinct by
evaluation so the two-rows branch is exercised. -/
theorem contentHash_deterministic_two_rows_witness :
    (∀ r ∈ ([] : Store),
      r.id ≠ contentHash (str "LGTM") ∧ r.id ≠ contentHash (str "LGTM"))
    ∧ (contentHash (str "LGTM") = contentHash (str "LGTM")
       ∧ ∃ s1,
           add_review (fun _ => []) 0 (str "T0") [] (str "u") (.pydict {})
             (str "LGTM") = .ok (contentHash (str "LGTM"), s1)
         ∧ add_review (fun _ => []) 1 (str "T1") s1 (str "u") (.pydict {})
             (str "LGTM") = .error dupKeyError
         ∧ (s1.filter (fun r => r.id = contentHash (str "LGTM"))).length = 1)
    ∧ contentHash (str "a") ≠ contentHash (str "b")
    ∧ (str "a" ≠ str "b"
       ∧ ∃ s1 s2,
           add_review (fun _ => []) 0 (str "T0") [] (str "u") (.pydict {})
             (str "a") = .ok (contentHash (str "a"), s1)
         ∧ add_review (fun _ => []) 1 (str "T1") s1 (str "u") (.pydict {})
             (str "b") = .ok (contentHash (str "b"), s2)
         ∧ s2.length = ([] : Store).length + 2) :=
  ⟨by simp,
   (contentHash_deterministic_two_rows (fun _ => []) 0 1 (str "T0")
     (str "T1") [] (str "u") {} (str "LGTM") (str "LGTM") (by simp)).1 rfl,
   by decide,
   (contentHash_deterministic_two_rows (fun _ => []) 0 1 (str "T0")
     (str "T1") [] (str "u") {} (str "a") (str "b") (by simp)).2
     (by decide)⟩

/-- C7: refuted as stated — when `applicationContent` carries no
`created_at`, the stored `application_date` is not null: it defaults to
the write-time `datetime.now().isoformat()` value.  Concrete run with an
empty payload dict. -/
theorem application_date_defaults_to_now :
    (add_review (fun _ => []) 5 (str "2026-10-12T00:00:00") [] (str "u1")
        (.pydict {}) (str "LGTM")).toOption.map
        (fun p => p.2.map (fun r => r.meta_data.application_date))
      = some [some (str "2026-10-12T00:00:00")] := by
  decide

/-- C7 (amended): `application_id` is taken from the payload's `id` when
available and is null otherwise; `application_date` is taken from
`created_at` when available and otherwise defaults to the write-time
timestamp (never null); and for the `applicationContent` the orchestrator
actually passes on the new-application path — the raw message string —
`addReview` raises `AttributeError` and stores nothing at all. -/
theorem addReview_metadata_population (getEmbedding : Str → List Int)
    (ts : Nat) (iso : Str) (store : Store) (user_id : Str) (d : PyDict)
    (t : Str) (hfresh : ∀ r ∈ store, r.id ≠ contentHash t) :
    (∃ row, add_review getEmbedding ts iso store user_id (.pydict d) t
          = .ok (contentHash t, store ++ [row])
      ∧ row.meta_data.application_id = d.id
      ∧ row.meta_data.application_date = some (d.created_at.getD iso))
    ∧ ∀ m, add_review getEmbedding ts iso store user_id (.pystr m) t
        = .error (str "AttributeError") := by
  constructor
  · exact ⟨_, add_review_fresh getEmbedding ts iso store user_id d t hfresh,
      rfl, rfl⟩
  · intro m
    rfl

/-- C7 (amended) witness: concrete payload with an `id` but no
`created_at`. -/
theorem addReview_metadata_population_witness :
    (∀ r ∈ ([] : Store), r.id ≠ contentHash (str "LGTM"))
    ∧ ((∃ row, add_review (fun _ => []) 5 (str "NOW") [] (str "u1")
          (.pydict { id := some (str "app-1") }) (str "LGTM")
          = .ok (contentHash (str "LGTM"), [] ++ [row])
      ∧ row.meta_data.application_id = some (str "app-1")
      ∧ row.meta_data.application_date
          = some ((Option.none).getD (str "NOW")))
    ∧ ∀ m, add_review (fun _ => []) 5 (str "NOW") [] (str "u1") (.pystr m)
        (str "LGTM") = .error (str "AttributeError")) :=
  ⟨by simp, addReview_metadata_population (fun _ => []) 5 (str "NOW") []
    (str "u1") { id := some (str "app-1") } (str "LGTM") (by simp)⟩

/-- C3: `get_reviews(userId)` returns exactly the stored rows whose
metadata `user_id` matches (as a permutation of the filtered table),
sorted with non-increasing `created_at` (most recent first), each
formatted by the fetch loop; and when no row matches it returns the empty
list rather than an error. -/
theorem getReviews_filter_sorted_empty (store : Store) (user_id : Str) :
    (get_reviews_rows store user_id).Perm
        (store.filter (fun r => r.meta_data.user_id = user_id))
    ∧ List.Pairwise (fun a b : ReviewRow => b.created_at ≤ a.created_at)
        (get_reviews_rows store user_id)
    ∧ get_reviews store user_id
        = (get_reviews_rows store user_id).map formatReviewRow
    ∧ ((∀ r ∈ store, r.meta_data.user_id ≠ user_id) →
        get_reviews store user_id = []) := by
  refine ⟨List.perm_insertionSort _ _, List.sorted_insertionSort _ _, rfl, ?_⟩
  intro hnone
  have hfil : store.filter (fun r => decide (r.meta_data.user_id = user_id))
      = [] := by
    rw [List.filter_eq_nil_iff]
    intro r hr
    simpa using hnone r hr
  simp [get_reviews, get_reviews_rows, hfil]

/-- C3 witness: a concrete two-row table — the rows come back
newest-first for the matching user, and an unknown user gets `[]`. -/
theorem getReviews_filter_sorted_empty_witness :
    List.Pairwise (fun a b : ReviewRow => b.created_at ≤ a.created_at)
        (get_reviews_rows [sampleRow "h1" 3, sampleRow "h2" 7] (str "u"))
    ∧ ((∀ r ∈ ([] : Store), r.meta_data.user_id ≠ str "zz") →
        get_reviews [] (str "zz") = []) :=
  ⟨(getReviews_filter_sorted_empty _ (str "u")).2.1,
   fun _ => (getReviews_filter_sorted_empty [] (str "zz")).2.2.2 (by simp)⟩

/-! ### Claims C4 and C10: the section extractor -/

theorem extractStep_eq_of_not {content label cat key sep : Str}
    {s : Sections} (h : pyContains content label = false) :
    extractStep content label cat key sep s = s := by
  unfold extractStep
  rw [h]
  rfl

theorem teamStep_eq_of_not {content : Str} {s : Sections}
    (h : pyContains content (str "Team Qualifications:") = false) :
    teamStep content s = s := by
  unfold teamStep
  rw [h]
  rfl

/-- C4: section extraction is a total function of the content (its
embedding is a plain function, and rerunning it is literally the same
value); its output always carries all six categories and all seventeen
field keys; and a field whose label is absent from the content is left at
the empty string.  (The per-field failure-isolation clause is vacuous:
every statement of the `try` block is guarded, so no internal step can
fail.) -/
theorem extract_total_shape_defaults (content : Str) :
    extract_application_sections content = extract_application_sections content
    ∧ sectionsShape (extract_application_sections content)
        = sectionsShape initialSections
    ∧ ∀ cat key label, (cat, key, label) ∈ fieldSpecs →
        pyContains content label = false →
        lookup2 (extract_application_sections content) cat key = some [] := by
  refine ⟨rfl, sectionsShape_extract content, ?_⟩
  intro cat key label hmem hlab
  fin_cases hmem <;>
  · unfold extract_application_sections preTeamSections
    first
      | rw [extractStep_eq_of_not hlab]
      | rw [teamStep_eq_of_not hlab]
    repeat first
      | rw [lookup2_extractStep_ne _ _ _ _ (by decide)]
      | rw [lookup2_teamStep_ne _ _ (by decide)]
    decide

/-- C4 witness: on a content that carries none of the labels, the shape
is fully populated and a sample field of each kind is the empty string. -/
theorem extract_total_shape_defaults_witness :
    sectionsShape (extract_application_sections (str "hello world"))
        = sectionsShape initialSections
    ∧ lookup2 (extract_application_sections (str "hello world"))
        (str "project_fundamentals") (str "name") = some []
    ∧ lookup2 (extract_application_sections (str "hello world"))
        (str "team_capability") (str "track_record") = some [] :=
  ⟨(extract_total_shape_defaults (str "hello world")).2.1,
   (extract_total_shape_defaults (str "hello world")).2.2
     (str "project_fundamentals") (str "name") (str "Company/Project Name:")
     (by decide) (by decide),
   (extract_total_shape_defaults (str "hello world")).2.2
     (str "team_capability") (str "track_record")
     (str "Team Qualifications:") (by decide) (by decide)⟩

theorem lookup2_preTeamSections_team (content key : Str) :
    lookup2 (preTeamSections content) (str "team_capability") key
      = lookup2 initialSections (str "team_capability") key := by
  unfold preTeamSections
  repeat
    rw [lookup2_extractStep_ne _ _ _ _
      (fun hh => absurd hh.1 (by decide))]

theorem lookup2_teamStep_eval (content : Str) (s : Sections)
    (hexp : lookup2 s (str "team_capability") (str "expertise") = some [])
    (htrk : lookup2 s (str "team_capability") (str "track_record") = some [])
    (hcmp : lookup2 s (str "team_capability") (str "completeness") = some []) :
    lookup2 (teamStep content s) (str "team_capability") (str "expertise")
        = some (teamValue content)
    ∧ lookup2 (teamStep content s) (str "team_capability")
        (str "track_record") = some (teamValue content)
    ∧ lookup2 (teamStep content s) (str "team_capability")
        (str "completeness") = some (teamValue content) := by
  by_cases hg : pyContains content (str "Team Qualifications:")
  · have hA_exp : lookup2
        (update2 s (str "team_capability") (str "expertise")
          (extractField content (str "Team Qualifications:") (str "\n\n")))
        (str "team_capability") (str "expertise")
        = some (extractField content (str "Team Qualifications:")
            (str "\n\n")) := by
      rw [lookup2_update2_self, hexp]
      rfl
    have hA_trk : lookup2
        (update2 s (str "team_capability") (str "expertise")
          (extractField content (str "Team Qualifications:") (str "\n\n")))
        (str "team_capability") (str "track_record") = some [] := by
      rw [lookup2_update2_ne _ _ (by decide)]
      exact htrk
    have hA_cmp : lookup2
        (update2 s (str "team_capability") (str "expertise")
          (extractField content (str "Team Qualifications:") (str "\n\n")))
        (str "team_capability") (str "completeness") = some [] := by
      rw [lookup2_update2_ne _ _ (by decide)]
      exact hcmp
    unfold teamStep teamValue
    rw [hg]
    simp only [if_true, hA_exp, Option.getD_some]
    have hB_exp : lookup2
        (update2 (update2 s (str "team_capability") (str "expertise")
            (extractField content (str "Team Qualifications:") (str "\n\n")))
          (str "team_capability") (str "track_record")
          (extractField content (str "Team Qualifications:") (str "\n\n")))
        (str "team_capability") (str "expertise")
        = some (extractField content (str "Team Qualifications:")
            (str "\n\n")) := by
      rw [lookup2_update2_ne _ _ (by decide)]
      exact hA_exp
    have hB_trk : lookup2
        (update2 (update2 s (str "team_capability") (str "expertise")
            (extractField content (str "Team Qualifications:") (str "\n\n")))
          (str "team_capability") (str "track_record")
          (extractField content (str "Team Qualifications:") (str "\n\n")))
        (str "team_capability") (str "track_record")
        = some (extractField content (str "Team Qualifications:")
            (str "\n\n")) := by
      rw [lookup2_update2_self, hA_trk]
      rfl
    have hB_cmp : lookup2
        (update2 (update2 s (str "team_capability") (str "expertise")
            (extractField content (str "Team Qualifications:") (str "\n\n")))
          (str "team_capability") (str "track_record")
          (extractField content (str "Team Qualifications:") (str "\n\n")))
        (str "team_capability") (str "completeness") = some [] := by
      rw [lookup2_update2_ne _ _ (by decide)]
      exact hA_cmp
    simp only [hB_exp, Option.getD_some]
    refine ⟨?_, ?_, ?_⟩
    · rw [lookup2_update2_ne _ _ (by decide)]
      exact hB_exp
    · rw [lookup2_update2_ne _ _ (by decide)]
      exact hB_trk
    · rw [lookup2_update2_self, hB_cmp]
      rfl
  · have hg' : pyContains content (str "Team Qualifications:") = false := by
      simpa using hg
    rw [teamStep_eq_of_not hg', hexp, htrk, hcmp]
    simp [teamValue, hg']

/-- C10: no input can make `team_capability.track_record` or
`team_capability.completeness` differ from `team_capability.expertise` —
the team block writes the same extracted value into all three fields when
`"Team Qualifications:"` is present, and all three stay empty otherwise. -/
theorem team_fields_always_equal (content : Str) :
    lookup2 (extract_application_sections content) (str "team_capability")
        (str "track_record")
      = lookup2 (extract_application_sections content)
        (str "team_capability") (str "expertise")
    ∧ lookup2 (extract_application_sections content) (str "team_capability")
        (str "completeness")
      = lookup2 (extract_application_sections content)
        (str "team_capability") (str "expertise")
    ∧ lookup2 (extract_application_sections content) (str "team_capability")
        (str "expertise") = some (teamValue content) := by
  have hpre := lookup2_preTeamSections_team content
  have heval := lookup2_teamStep_eval content (preTeamSections content)
    (by rw [hpre]; decide) (by rw [hpre]; decide) (by rw [hpre]; decide)
  have hpeel : ∀ key,
      lookup2 (extract_application_sections content) (str "team_capability")
        key = lookup2 (teamStep content (preTeamSections content))
          (str "team_capability") key := by
    intro key
    unfold extract_application_sections
    rw [lookup2_extractStep_ne _ _ _ _ (fun hh => absurd hh.1 (by decide)),
      lookup2_extractStep_ne _ _ _ _ (fun hh => absurd hh.1 (by decide)),
      lookup2_extractStep_ne _ _ _ _ (fun hh => absurd hh.1 (by decide))]
  rw [hpeel, hpeel, hpeel, heval.1, heval.2.1, heval.2.2]
  exact ⟨rfl, rfl, rfl⟩

/-! ### Claim C8: parse failure degrades to a bounded error context -/

theorem handleFlowError_agentCalls (reply : Option (Str → Except Str Unit))
    (e : Str) (store : Store) (agentCalls replyCalls : List Str) :
    (handleFlowError reply e store agentCalls replyCalls).agentCalls
      = agentCalls := by
  unfold handleFlowError
  cases reply with
  | none => rfl
  | some f => rcases hf : f (errorReplyText e) with u | e2 <;> simp [hf]

/-- Every branch of `next_action` invokes the external reviewer exactly
once, with the context `_create_context` built. -/
theorem next_action_agentCalls (loads : Str → Option PyDict)
    (github : Str → Except Str GhStats) (market : Str → Except Str Str)
    (pyRepr : List ReviewOut → Str) (agentRun : Str → Except Str Str)
    (getEmbedding : Str → List Int) (nowTs : Nat) (nowIso : Str)
    (store : Store) (msg user_id chat_id : Str)
    (reply : Option (Str → Except Str Unit)) :
    (next_action loads github market pyRepr agentRun getEmbedding nowTs
        nowIso store msg user_id chat_id reply).agentCalls
      = [(create_context loads github market pyRepr store msg user_id).1] := by
  unfold next_action
  rcases hcc : create_context loads github market pyRepr store msg user_id
    with ⟨context, structured_data⟩
  simp only [hcc]
  rcases har : agentRun context with e | response
  · simp only [har, handleFlowError_agentCalls]
  · simp only [har]
    rcases hsave : (if pyContains msg newAppMarker && structured_data.isSome
        then (add_review getEmbedding nowTs nowIso store user_id (.pystr msg)
          response).map Prod.snd
        else .ok store) with e | store'
    · simp only [hsave, handleFlowError_agentCalls]
    · simp only [hsave]
      cases reply with
      | none => rfl
      | some f =>
        rcases hf : f response with e | u
        · simp only [hf, handleFlowError_agentCalls]
        · simp only [hf]

/-- C8: when the new-application marker is present but the payload does
not parse, the Context Builder returns the fixed parse-error context with
a 100-character preview of the raw input (so its length is bounded by the
fixed prefix plus 103, never the full message), and the flow still hands
exactly that context to the external reviewer. -/
theorem parse_failure_bounded_context_still_reviewed
    (loads : Str → Option PyDict) (github : Str → Except Str GhStats)
    (market : Str → Except Str Str) (pyRepr : List ReviewOut → Str)
    (agentRun : Str → Except Str Str) (getEmbedding : Str → List Int)
    (nowTs : Nat) (nowIso : Str) (store : Store) (msg user_id chat_id : Str)
    (reply : Option (Str → Except Str Unit))
    (hmark : pyContains msg newAppMarker = true)
    (hparse : parse_application_data loads msg = none) :
    create_context loads github market pyRepr store msg user_id
        = (parseErrorContext msg, none)
    ∧ (parseErrorContext msg).length
        ≤ (str "Error: Unable to parse application data from message: ").length
          + 103
    ∧ (next_action loads github market pyRepr agentRun getEmbedding nowTs
        nowIso store msg user_id chat_id reply).agentCalls
      = [parseErrorContext msg] := by
  have hcc : create_context loads github market pyRepr store msg user_id
      = (parseErrorContext msg, none) := by
    unfold create_context
    rw [hmark, hparse]
    rfl
  refine ⟨hcc, ?_, ?_⟩
  · unfold parseErrorContext
    have h1 : (msg.take 100).length ≤ 100 := by
      rw [List.length_take]
      exact Nat.min_le_left _ _
    have h2 : (str "...").length = 3 := rfl
    simp only [List.append_assoc, List.length_append]
    omega
  · rw [next_action_agentCalls, hcc]

/-- C8 witness: a marker-bearing message with no JSON braces at all. -/
theorem parse_failure_bounded_context_still_reviewed_witness :
    pyContains (str "New Grant Application Received but no payload here")
        newAppMarker = true
    ∧ parse_application_data (fun _ => none)
        (str "New Grant Application Received but no payload here") = none
    ∧ (next_action (fun _ => none) (fun _ => .error []) (fun _ => .error [])
        (fun _ => []) (fun _ => .ok (str "R")) (fun _ => []) 0 [] []
        (str "New Grant Application Received but no payload here") (str "u")
        (str "c") none).agentCalls
      = [parseErrorContext
          (str "New Grant Application Received but no payload here")] :=
  ⟨by decide, by decide,
   (parse_failure_bounded_context_still_reviewed (fun _ => none)
     (fun _ => .error []) (fun _ => .error []) (fun _ => [])
     (fun _ => .ok (str "R")) (fun _ => []) 0 [] []
     (str "New Grant Application Received but no payload here") (str "u")
     (str "c") none (by decide) (by decide)).2.2⟩

theorem githubAnalysisText_of_failure (github : Str → Except Str GhStats)
    (secs : Sections)
    (hgh : List.isEmpty ((lookup2 secs (str "technical_infrastructure")
      (str "github")).getD []) = false)
    (hparts : 2 ≤ (pySplit (str "/")
      (pyReplace (pyReplace ((lookup2 secs (str "technical_infrastructure")
          (str "github")).getD []) (str "https://github.com/") [])
        (str ".git") [])).length)
    (hGfail : ∀ q, ∃ e, github q = Except.error e) :
    githubAnalysisText github secs = ghUnavailableNote := by
  simp only [githubAnalysisText]
  rw [hgh]
  simp only [Bool.false_eq_true, if_false]
  rw [if_pos hparts]
  obtain ⟨e, he⟩ := hGfail _
  rw [he]
  rfl

theorem marketAnalysisText_of_failure (market : Str → Except Str Str)
    (secs : Sections)
    (hps : List.isEmpty ((lookup2 secs (str "market_innovation")
      (str "problem_solution")).getD []) = false)
    (hMfail : ∀ q, ∃ e, market q = Except.error e) :
    marketAnalysisText market secs = mkUnavailableNote := by
  simp only [marketAnalysisText]
  rw [hps]
  simp only [Bool.false_eq_true, if_false]
  obtain ⟨e, he⟩ := hMfail _
  rw [he]
  rfl

/-- C9: on a new-application message whose payload parses, when both
enrichment adapters are invoked and both raise, the Context Builder still
returns the structured sections plus a non-empty context that carries the
inline unavailable note for each adapter and the rubric instructions. -/
theorem contextBuilder_survives_double_enrichment_failure
    (loads : Str → Option PyDict) (github : Str → Except Str GhStats)
    (market : Str → Except Str Str) (pyRepr : List ReviewOut → Str)
    (store : Store) (msg user_id : Str) (app_data : ApplicationData)
    (hmark : pyContains msg newAppMarker = true)
    (hparse : parse_application_data loads msg = some app_data)
    (hgh : List.isEmpty ((lookup2
      (extract_application_sections app_data.content)
      (str "technical_infrastructure") (str "github")).getD []) = false)
    (hparts : 2 ≤ (pySplit (str "/")
      (pyReplace (pyReplace ((lookup2
          (extract_application_sections app_data.content)
          (str "technical_infrastructure") (str "github")).getD [])
        (str "https://github.com/") []) (str ".git") [])).length)
    (hps : List.isEmpty ((lookup2
      (extract_application_sections app_data.content)
      (str "market_innovation") (str "problem_solution")).getD []) = false)
    (hGfail : ∀ q, ∃ e, github q = Except.error e)
    (hMfail : ∀ q, ∃ e, market q = Except.error e) :
    (create_context loads github market pyRepr store msg user_id).2
        = some (extract_application_sections app_data.content)
    ∧ containsStr (create_context loads github market pyRepr store msg
        user_id).1 ghUnavailableNote
    ∧ containsStr (create_context loads github market pyRepr store msg
        user_id).1 mkUnavailableNote
    ∧ containsStr (create_context loads github market pyRepr store msg
        user_id).1 rubricBlock
    ∧ (create_context loads github market pyRepr store msg user_id).1
        ≠ [] := by
  have hG := githubAnalysisText_of_failure github
    (extract_application_sections app_data.content) hgh hparts hGfail
  have hM := marketAnalysisText_of_failure market
    (extract_application_sections app_data.content) hps hMfail
  have hcc : create_context loads github market pyRepr store msg user_id
      = (str "\n            New Grant Application Review:\n\n            Applicant ID: "
           ++ user_id
           ++ str "\n            Application ID: " ++ app_data.id
           ++ str "\n            Submission Date: " ++ app_data.created_at
           ++ str "\n\n            Application Content:\n            "
           ++ app_data.content
           ++ str "\n\n            Technical Analysis:" ++ ghUnavailableNote
           ++ str "\n\n            Market Research:" ++ mkUnavailableNote
           ++ rubricBlock,
         some (extract_application_sections app_data.content)) := by
    simp only [create_context]
    rw [hmark, hparse]
    simp only [hG, hM, if_true]
  rw [hcc]
  refine ⟨rfl, ?_, ?_, ?_, ?_⟩
  · exact ⟨str "\n            New Grant Application Review:\n\n            Applicant ID: "
        ++ user_id
        ++ str "\n            Application ID: " ++ app_data.id
        ++ str "\n            Submission Date: " ++ app_data.created_at
        ++ str "\n\n            Application Content:\n            "
        ++ app_data.content
        ++ str "\n\n            Technical Analysis:",
      str "\n\n            Market Research:" ++ mkUnavailableNote
        ++ rubricBlock,
      by simp [List.append_assoc]⟩
  · exact ⟨str "\n            New Grant Application Review:\n\n            Applicant ID: "
        ++ user_id
        ++ str "\n            Application ID: " ++ app_data.id
        ++ str "\n            Submission Date: " ++ app_data.created_at
        ++ str "\n\n            Application Content:\n            "
        ++ app_data.content
        ++ str "\n\n            Technical Analysis:" ++ ghUnavailableNote
        ++ str "\n\n            Market Research:",
      rubricBlock,
      by simp [List.append_assoc]⟩
  · exact ⟨str "\n            New Grant Application Review:\n\n            Applicant ID: "
        ++ user_id
        ++ str "\n            Application ID: " ++ app_data.id
        ++ str "\n            Submission Date: " ++ app_data.created_at
        ++ str "\n\n            Application Content:\n            "
        ++ app_data.content
        ++ str "\n\n            Technical Analysis:" ++ ghUnavailableNote
        ++ str "\n\n            Market Research:" ++ mkUnavailableNote,
      [],
      by simp [List.append_assoc]⟩
  · intro h
    exact absurd (List.append_eq_nil.mp h).2 (by decide)

/-- C9 witness: a concrete application whose content names a GitHub
repository and a problem/solution text, with both adapters raising. -/
theorem contextBuilder_survives_double_enrichment_failure_witness :
    pyContains c9msg newAppMarker = true
    ∧ parse_application_data (fun _ => some c9dict) c9msg = some c9app
    ∧ containsStr (create_context (fun _ => some c9dict)
        (fun _ => .error (str "rate limit")) (fun _ => .error (str "down"))
        (fun _ => []) [] c9msg (str "u")).1 ghUnavailableNote
    ∧ containsStr (create_context (fun _ => some c9dict)
        (fun _ => .error (str "rate limit")) (fun _ => .error (str "down"))
        (fun _ => []) [] c9msg (str "u")).1 mkUnavailableNote :=
  ⟨by decide, by decide,
   (contextBuilder_survives_double_enrichment_failure
     (fun _ => some c9dict) (fun _ => .error (str "rate limit"))
     (fun _ => .error (str "down")) (fun _ => []) [] c9msg (str "u") c9app
     (by decide) (by decide) (by decide) (by decide) (by decide)
     (fun _ => ⟨str "rate limit", rfl⟩)
     (fun _ => ⟨str "down", rfl⟩)).2.1,
   (contextBuilder_survives_double_enrichment_failure
     (fun _ => some c9dict) (fun _ => .error (str "rate limit"))
     (fun _ => .error (str "down")) (fun _ => []) [] c9msg (str "u") c9app
     (by decide) (by decide) (by decide) (by decide) (by decide)
     (fun _ => ⟨str "rate limit", rfl⟩)
     (fun _ => ⟨str "down", rfl⟩)).2.2.1⟩

/-! ### Claim C6: reply-callback discipline -/

/-- C6: refuted as stated — a concrete follow-up flow whose reply
callback raises: the callback fires twice (first with the review text,
then with the error text from the `except` block), and the callback's
failure propagates as the operation's outcome instead of the review text
being returned. -/
theorem replyCallback_twice_and_propagates :
    (next_action (fun _ => none) (fun _ => .error []) (fun _ => .error [])
        (fun _ => []) (fun _ => .ok (str "REVIEW")) (fun _ => []) 0 [] []
        (str "hello") (str "u") (str "c")
        (some (fun _ => .error (str "boom")))).replyCalls
      = [str "REVIEW", errorReplyText (str "boom")]
    ∧ (next_action (fun _ => none) (fun _ => .error []) (fun _ => .error [])
        (fun _ => []) (fun _ => .ok (str "REVIEW")) (fun _ => []) 0 [] []
        (str "hello") (str "u") (str "c")
        (some (fun _ => .error (str "boom")))).result
      = .error (str "boom") := by
  constructor
  · rfl
  · rfl

/-- C6 (amended): when the reply callback itself never fails, it is
invoked at most once per flow, and exactly once with the final text on a
returning flow; but a failing callback is re-invoked from the `except`
block with an error message (two invocations in total on that path) and
its failure propagates as the operation's outcome. -/
theorem replyCallback_behavior (loads : Str → Option PyDict)
    (github : Str → Except Str GhStats) (market : Str → Except Str Str)
    (pyRepr : List ReviewOut → Str) (agentRun : Str → Except Str Str)
    (getEmbedding : Str → List Int) (nowTs : Nat) (nowIso : Str)
    (store : Store) (msg user_id chat_id : Str)
    (f : Str → Except Str Unit) :
    ((∀ s, f s = Except.ok ()) →
      (next_action loads github market pyRepr agentRun getEmbedding nowTs
          nowIso store msg user_id chat_id (some f)).replyCalls.length ≤ 1
      ∧ ∀ t, (next_action loads github market pyRepr agentRun getEmbedding
            nowTs nowIso store msg user_id chat_id (some f)).result
          = .ok t →
          (next_action loads github market pyRepr agentRun getEmbedding
            nowTs nowIso store msg user_id chat_id (some f)).replyCalls
            = [t])
    ∧ ∀ response e1 e2,
        agentRun (create_context loads github market pyRepr store msg
          user_id).1 = .ok response →
        pyContains msg newAppMarker = false →
        f response = .error e1 →
        f (errorReplyText e1) = .error e2 →
        (next_action loads github market pyRepr agentRun getEmbedding nowTs
          nowIso store msg user_id chat_id (some f)).result = .error e2
        ∧ (next_action loads github market pyRepr agentRun getEmbedding
            nowTs nowIso store msg user_id chat_id (some f)).replyCalls
          = [response, errorReplyText e1] := by
  rcases hcc : create_context loads github market pyRepr store msg user_id
    with ⟨context, structured_data⟩
  constructor
  · intro hok
    unfold next_action
    simp only [hcc]
    rcases har : agentRun context with e | response
    · simp only [har]
      unfold handleFlowError
      simp only [hok]
      exact ⟨by simp, fun t ht => by simp at ht⟩
    · simp only [har]
      rcases hsave : (if pyContains msg newAppMarker
            && structured_data.isSome then
          (add_review getEmbedding nowTs nowIso store user_id (.pystr msg)
            response).map Prod.snd
        else .ok store) with e | store'
      · simp only [hsave]
        unfold handleFlowError
        simp only [hok]
        exact ⟨by simp, fun t ht => by simp at ht⟩
      · simp only [hsave, hok]
        refine ⟨by simp, fun t ht => ?_⟩
        simp only [Except.ok.injEq] at ht
        rw [ht]
  · intro response e1 e2 har hmrk hf1 hf2
    have har' : agentRun context = Except.ok response := har
    unfold next_action
    simp only [hcc]
    simp only [har', hmrk, Bool.false_and, Bool.false_eq_true, if_false, hf1]
    unfold handleFlowError
    simp only [hf2]
    exact ⟨trivial, rfl⟩

/-- C6 (amended) witness: a concrete follow-up flow with a callback that
always succeeds — it is invoked exactly once, with the returned text. -/
theorem replyCallback_behavior_witness :
    (∀ s : Str, (fun _ : Str => (Except.ok () : Except Str Unit)) s
        = Except.ok ())
    ∧ ((next_action (fun _ => none) (fun _ => .error [])
          (fun _ => .error []) (fun _ => []) (fun _ => .ok (str "REVIEW"))
          (fun _ => []) 0 [] [] (str "hello") (str "u") (str "c")
          (some (fun _ => (Except.ok () : Except Str Unit)))).replyCalls.length
          ≤ 1
      ∧ ∀ t, (next_action (fun _ => none) (fun _ => .error [])
            (fun _ => .error []) (fun _ => []) (fun _ => .ok (str "REVIEW"))
            (fun _ => []) 0 [] [] (str "hello") (str "u") (str "c")
            (some (fun _ => (Except.ok () : Except Str Unit)))).result
            = .ok t →
          (next_action (fun _ => none) (fun _ => .error [])
            (fun _ => .error []) (fun _ => []) (fun _ => .ok (str "REVIEW"))
            (fun _ => []) 0 [] [] (str "hello") (str "u") (str "c")
            (some (fun _ => (Except.ok () : Except Str Unit)))).replyCalls
            = [t]) :=
  ⟨fun _ => rfl,
   (replyCallback_behavior (fun _ => none) (fun _ => .error [])
     (fun _ => .error []) (fun _ => []) (fun _ => .ok (str "REVIEW"))
     (fun _ => []) 0 [] [] (str "hello") (str "u") (str "c")
     (fun _ => (Except.ok () : Except Str Unit))).1 (fun _ => rfl)⟩

/-! ### Claim C5: ingress error paths -/

/-- C5: at the ingress POST path, a payload whose `meta_data` lacks a
truthy `user_id` gets the explicit invalid-application response with
nothing persisted; but a malformed JSON payload does not get the
invalid-format response — the `except json.JSONDecodeError` handler
reads the not-yet-assigned local `funder_chat_id`, so an
`UnboundLocalError` escapes the endpoint (with nothing persisted). -/
theorem ingress_malformed_and_missing_user (loads : Str → Option PyDict)
    (github : Str → Except Str GhStats) (market : Str → Except Str Str)
    (pyRepr : List ReviewOut → Str) (agentRun : Str → Except Str Str)
    (getEmbedding : Str → List Int) (nowTs : Nat) (nowIso : Str)
    (sendTelegram : Str → Except Str Unit) :
    (∀ e store, process_application loads github market pyRepr agentRun
        getEmbedding nowTs nowIso sendTelegram (.error e) store
      = (.raised (str "UnboundLocalError"), store))
    ∧ ∀ d store,
        pyTruthyOpt (match d.meta_data with
          | some md => md.user_id
          | none => none) = false →
        process_application loads github market pyRepr agentRun getEmbedding
            nowTs nowIso sendTelegram (.ok d) store
          = (.response (str "error") (str "Invalid application data"),
             store) := by
  refine ⟨fun e store => rfl, fun d store h => ?_⟩
  simp only [process_application]
  rw [if_pos h]

/-- C5 witness: the concrete empty payload dict (no `meta_data` at all)
yields the invalid-application response with the store untouched, and a
concrete decode failure raises `UnboundLocalError` with the store
untouched. -/
theorem ingress_malformed_and_missing_user_witness :
    process_application (fun _ => none) (fun _ => .error [])
        (fun _ => .error []) (fun _ => []) (fun _ => .ok (str "R"))
        (fun _ => []) 0 [] (fun _ => .ok ())
        (.error (str "Expecting value")) []
      = (.raised (str "UnboundLocalError"), [])
    ∧ (pyTruthyOpt (match ({} : PyDict).meta_data with
          | some md => md.user_id
          | none => none) = false
    ∧ process_application (fun _ => none) (fun _ => .error [])
        (fun _ => .error []) (fun _ => []) (fun _ => .ok (str "R"))
        (fun _ => []) 0 [] (fun _ => .ok ()) (.ok {}) []
      = (.response (str "error") (str "Invalid application data"), [])) :=
  ⟨(ingress_malformed_and_missing_user (fun _ => none) (fun _ => .error [])
      (fun _ => .error []) (fun _ => []) (fun _ => .ok (str "R"))
      (fun _ => []) 0 [] (fun _ => .ok ())).1 (str "Expecting value") [],
   rfl,
   (ingress_malformed_and_missing_user (fun _ => none) (fun _ => .error [])
      (fun _ => .error []) (fun _ => []) (fun _ => .ok (str "R"))
      (fun _ => []) 0 [] (fun _ => .ok ())).2 {} [] rfl⟩

end Funder
